import Mathlib

/-!
A shallow embedding of the escrow program in
`src/programs/escrow-program/src/lib.rs` (an Anchor/Solana program), together
with proofs about its three instructions `initialize_escrow`, `cancel_escrow`
and `exchange`.

Modelling conventions:
* Account addresses (`Pubkey`) are natural numbers.
* The token ledger (SPL token program) is an external collaborator; its three
  operations `transfer`, `set_authority` and `close_account` are modelled from
  the boundary contract in the spec (balance and authority checks) together
  with their documented effects.  Token amounts are modelled as `Nat`: the
  contract exposes only `InsufficientBalance`/`AuthorityMismatch` failures.
* Anchor account validation (`signer`, `init`, `zero`, the `constraint =`
  clauses and the implicit existence/deserialization checks of
  `Account<TokenAccount>` / `ProgramAccount<EscrowAccount>`) runs before the
  instruction handler, checking the accounts in struct-field order; the
  `close = initializer` attribute closes the escrow record account after the
  handler succeeds.
* A whole instruction is `Chain → Except EscrowErr Chain`; returning an error
  models the host discarding the transaction, so an error leaves the observed
  chain state unchanged (Solana's all-or-nothing transaction semantics).
* Program-derived addresses: `Pubkey.find_program_address` (canonical bump,
  used for the vault authority) is abstracted as an arbitrary function
  `Env.derive : String → Pubkey → Pubkey`, and
  `Pubkey.create_program_address` on a seed plus an explicit bump byte (what
  the vault's `init, seeds = [b"token-seed"], bump = vault_account_bump`
  check computes with the caller-supplied bump) as
  `Env.createAddress : String → Nat → Pubkey → Pubkey`, so the vault address
  depends on the instruction's bump argument.
* Rent: token accounts carry a `lamports` reserve, returned to the close
  destination by `close_account`; `Env.rent` is the reserve deposited when the
  vault is created.  The payer-side debit and the record account's own
  lamports are not modelled (no claim concerns them).
-/

namespace EscrowProgram

abbrev Pubkey := Nat

/-- A token-ledger account: recorded authority (owner), token balance, and
lamport reserve. Mints are not modelled (the ledger contract in the spec has
no mint component). -/
structure TokenAccount where
  owner : Pubkey
  amount : Nat
  lamports : Nat
deriving DecidableEq, Repr

/-- The `EscrowAccount` state struct from the source (the Escrow Record). -/
structure EscrowAccount where
  initializer_key : Pubkey
  initializer_deposit_token_account : Pubkey
  initializer_receive_token_account : Pubkey
  initializer_amount : Nat
  taker_amount : Nat
deriving DecidableEq, Repr

/-- The possible states of the address that holds the Escrow Record:
nonexistent, freshly allocated with zeroed data (what Anchor's
`#[account(zero)]` demands), or holding a record. A zeroed account does not
deserialize as a `ProgramAccount<EscrowAccount>` (discriminator check). -/
inductive EscrowSlot where
  | absent
  | zeroed
  | record (r : EscrowAccount)
deriving DecidableEq, Repr

/-- Ledger state: token accounts by address, the escrow-record slot by
address, and plain lamport balances of wallet (system) accounts, used for the
rent returned when closing the vault. -/
structure Chain where
  tokenAccounts : Pubkey → Option TokenAccount
  escrowAccounts : Pubkey → EscrowSlot
  walletLamports : Pubkey → Nat

def setTok (s : Chain) (k : Pubkey) (v : Option TokenAccount) : Chain :=
  { s with tokenAccounts := fun j => if j = k then v else s.tokenAccounts j }

def setEscrow (s : Chain) (k : Pubkey) (v : EscrowSlot) : Chain :=
  { s with escrowAccounts := fun j => if j = k then v else s.escrowAccounts j }

def addLamports (s : Chain) (k : Pubkey) (n : Nat) : Chain :=
  { s with walletLamports := fun j => if j = k then s.walletLamports j + n else s.walletLamports j }

/-- Failure modes of the external Asset Ledger Service.
Modelled from the spec: `transfer`/`setAuthority`/`closeAccount` fail with
`InsufficientBalance`, `AuthorityMismatch` or `NonZeroBalance`;
`AccountNotFound` covers a call naming an address that holds no token
account (unreachable from validated instructions). -/
inductive LedgerErr where
  | InsufficientBalance
  | AuthorityMismatch
  | NonZeroBalance
  | AccountNotFound
deriving DecidableEq, Repr

/-- Errors an instruction can return: one constructor per Anchor validation
check of this program, in addition to propagated ledger errors. -/
inductive EscrowErr where
  | missingSignature
  | accountNotFound
  | accountAlreadyInUse
  | accountNotZeroed
  | escrowRecordMissing
  | constraintDepositBalance
  | constraintTakerBalance
  | constraintDepositAccount
  | constraintReceiveAccount
  | constraintInitializerKey
  | ledger (e : LedgerErr)
deriving DecidableEq, Repr

/-- Modelled from the spec: `transfer(from, to, authority, amount)` of the
Asset Ledger Service. `authSigned` is whether the caller holds a valid
signature (or PDA proof-of-derivation) for `authority`.  The debit is applied
before the credit so that a self-transfer (`source = dest`) is a no-op, as in
the ledger implementation. -/
def token_transfer (s : Chain) (source dest authority : Pubkey)
    (authSigned : Bool) (amount : Nat) : Except LedgerErr Chain :=
  match s.tokenAccounts source with
  | none => .error .AccountNotFound
  | some src =>
    if !authSigned then .error .AuthorityMismatch
    else if authority ≠ src.owner then .error .AuthorityMismatch
    else if src.amount < amount then .error .InsufficientBalance
    else
      let s1 := setTok s source (some { src with amount := src.amount - amount })
      match s1.tokenAccounts dest with
      | none => .error .AccountNotFound
      | some dst => .ok (setTok s1 dest (some { dst with amount := dst.amount + amount }))

/-- Modelled from the spec: `setAuthority(account, newAuthority)` of the
Asset Ledger Service, callable only by the recorded authority holder. -/
def token_set_authority (s : Chain) (account newAuthority currentAuthority : Pubkey)
    (authSigned : Bool) : Except LedgerErr Chain :=
  match s.tokenAccounts account with
  | none => .error .AccountNotFound
  | some acc =>
    if !authSigned then .error .AuthorityMismatch
    else if currentAuthority ≠ acc.owner then .error .AuthorityMismatch
    else .ok (setTok s account (some { acc with owner := newAuthority }))

/-- Modelled from the spec: `closeAccount(account, destination, authority)` of
the Asset Ledger Service: requires a zero token balance, deletes the account
and returns its lamport reserve to `destination`. -/
def token_close_account (s : Chain) (account destination authority : Pubkey)
    (authSigned : Bool) : Except LedgerErr Chain :=
  match s.tokenAccounts account with
  | none => .error .AccountNotFound
  | some acc =>
    if !authSigned then .error .AuthorityMismatch
    else if authority ≠ acc.owner then .error .AuthorityMismatch
    else if acc.amount ≠ 0 then .error .NonZeroBalance
    else .ok (addLamports (setTok s account none) destination acc.lamports)

/-- Static context of the deployed program: the two PDA derivation functions
of the host, the program id, and the rent-exempt reserve paid into a freshly
created token account.  `derive` is `Pubkey.find_program_address` restricted
to the single-seed calls this program makes (canonical bump chosen by the
host); `createAddress` is `Pubkey.create_program_address` on a seed plus an
explicit bump byte, which the vault's `init, seeds = [b"token-seed"],
bump = vault_account_bump` check uses with the caller-supplied bump, so the
resulting address depends on that bump.  Distinct valid bumps give distinct
addresses in general; no relation between the two functions is assumed. -/
structure Env where
  derive : String → Pubkey → Pubkey
  createAddress : String → Nat → Pubkey → Pubkey
  programId : Pubkey
  rent : Nat

/-- Constant `ESCROW_PDA_SEED` from the source. -/
def ESCROW_PDA_SEED : String := "escrow-pda-seed"

/-- The seed literal of the vault account's `seeds = [b"token-seed"]`. -/
def tokenSeed : String := "token-seed"

/-- The vault authority PDA: `find_program_address(&[ESCROW_PDA_SEED], program_id)`. -/
def vaultAuthority (env : Env) : Pubkey := env.derive ESCROW_PDA_SEED env.programId

/-- The vault account's PDA address:
`create_program_address([b"token-seed", [bump]], program_id)` — determined by
the fixed seed `"token-seed"`, the caller-supplied `vault_account_bump`, and
the program id. -/
def vaultAddress (env : Env) (bump : Nat) : Pubkey :=
  env.createAddress tokenSeed bump env.programId

/-- Arguments/accounts of `initialize_escrow` (the `InitializeEscrow` accounts
struct plus the instruction arguments `vault_account_bump`,
`initializer_amount` and `taker_amount`; `vault_account` is forced by the
`seeds`/`bump` check to the address `vaultAddress env vault_account_bump`, so
it is not a separate field; `mint`, programs and sysvars carry no state).
The bump is a `u8` in the source; its range is not load-bearing here. -/
structure InitializeArgs where
  vault_account_bump : Nat
  initializer : Pubkey
  initializer_deposit_token_account : Pubkey
  initializer_receive_token_account : Pubkey
  escrow_account : Pubkey
  initializer_amount : Nat
  taker_amount : Nat
deriving DecidableEq, Repr

/-- Accounts of `cancel_escrow` (the `CancelEscrow` accounts struct). -/
structure CancelArgs where
  initializer : Pubkey
  initializer_deposit_token_account : Pubkey
  vault_account : Pubkey
  vault_authority : Pubkey
  escrow_account : Pubkey
deriving DecidableEq, Repr

/-- Accounts of `exchange` (the `Exchange` accounts struct). -/
structure ExchangeArgs where
  taker : Pubkey
  taker_deposit_token_account : Pubkey
  taker_receive_token_account : Pubkey
  initializer_deposit_token_account : Pubkey
  initializer_receive_token_account : Pubkey
  initializer : Pubkey
  escrow_account : Pubkey
  vault_account : Pubkey
  vault_authority : Pubkey
deriving DecidableEq, Repr

/-- The account-creation effect of Anchor's `init` on `vault_account`: a
fresh token account at the PDA of seed `"token-seed"` and the caller's bump,
owned by the initializer per `token::authority = initializer`, holding the
rent reserve. -/
def initVault (env : Env) (a : InitializeArgs) (s : Chain) : Chain :=
  setTok s (vaultAddress env a.vault_account_bump)
    (some { owner := a.initializer, amount := 0, lamports := env.rent })

/-- The Escrow Record the `initialize_escrow` handler stores: its five fields
copied from the instruction's accounts and arguments. -/
def initRecord (a : InitializeArgs) : EscrowAccount :=
  { initializer_key := a.initializer
    initializer_deposit_token_account := a.initializer_deposit_token_account
    initializer_receive_token_account := a.initializer_receive_token_account
    initializer_amount := a.initializer_amount
    taker_amount := a.taker_amount }

/-- The Anchor validation phase of `initialize_escrow` (`InitializeEscrow`
accounts struct, in field order): `initializer` must have signed;
`vault_account` is `init` at the PDA of seed `"token-seed"` and the supplied
`vault_account_bump` (fails if an account already exists at that
bump-dependent address, otherwise creates it); the deposit account must
exist and satisfy `initializer_deposit_token_account.amount >=
initializer_amount`; the receive account must exist; `escrow_account` must be
`#[account(zero)]`.  Checks after the `init` observe the state with the vault
created. -/
def initializeValidate (env : Env) (sigs : List Pubkey) (a : InitializeArgs)
    (s : Chain) : Option EscrowErr :=
  if a.initializer ∉ sigs then some .missingSignature
  else if (s.tokenAccounts (vaultAddress env a.vault_account_bump)).isSome then
    some .accountAlreadyInUse
  else
    match (initVault env a s).tokenAccounts a.initializer_deposit_token_account with
    | none => some .accountNotFound
    | some dep =>
      if dep.amount < a.initializer_amount then some .constraintDepositBalance
      else if ((initVault env a s).tokenAccounts a.initializer_receive_token_account).isNone then
        some .accountNotFound
      else if (initVault env a s).escrowAccounts a.escrow_account ≠ EscrowSlot.zeroed then
        some .accountNotZeroed
      else none

/-- Instruction `initialize_escrow`.  After validation (which performed the `init`), the
handler populates the record, sets the vault's authority to the
`ESCROW_PDA_SEED` PDA, and transfers `initializer_amount` from the deposit
account to the vault. -/
def initialize_escrow (env : Env) (sigs : List Pubkey) (a : InitializeArgs)
    (s : Chain) : Except EscrowErr Chain :=
  match initializeValidate env sigs a s with
  | some e => .error e
  | none =>
    let s1 := setEscrow (initVault env a s) a.escrow_account (.record (initRecord a))
    match token_set_authority s1 (vaultAddress env a.vault_account_bump)
        (vaultAuthority env) a.initializer (decide (a.initializer ∈ sigs)) with
    | .error e => .error (.ledger e)
    | .ok s2 =>
      match token_transfer s2 a.initializer_deposit_token_account
          (vaultAddress env a.vault_account_bump) a.initializer
          (decide (a.initializer ∈ sigs)) a.initializer_amount with
      | .error e => .error (.ledger e)
      | .ok s3 => .ok s3

/-- Instruction `cancel_escrow`.  Anchor validation in `CancelEscrow` field order:
`initializer` must have signed; the deposit and vault token accounts must
exist; the record must exist and satisfy its two `constraint =` clauses in
source order (`initializer_key` match, then deposit-account match).  The
handler transfers `initializer_amount` from the vault to the deposit account
and closes the vault to the initializer, both signed by the `ESCROW_PDA_SEED`
PDA via `with_signer`; `close = initializer` then removes the record. -/
def cancel_escrow (env : Env) (sigs : List Pubkey) (a : CancelArgs)
    (s : Chain) : Except EscrowErr Chain :=
  if a.initializer ∉ sigs then .error .missingSignature
  else if (s.tokenAccounts a.initializer_deposit_token_account).isNone then
    .error .accountNotFound
  else if (s.tokenAccounts a.vault_account).isNone then .error .accountNotFound
  else
    match s.escrowAccounts a.escrow_account with
    | .absent => .error .escrowRecordMissing
    | .zeroed => .error .escrowRecordMissing
    | .record r =>
      if r.initializer_key ≠ a.initializer then .error .constraintInitializerKey
      else if r.initializer_deposit_token_account ≠ a.initializer_deposit_token_account then
        .error .constraintDepositAccount
      else
        match token_transfer s a.vault_account a.initializer_deposit_token_account
            a.vault_authority (decide (a.vault_authority = vaultAuthority env))
            r.initializer_amount with
        | .error e => .error (.ledger e)
        | .ok s1 =>
          match token_close_account s1 a.vault_account a.initializer
              a.vault_authority (decide (a.vault_authority = vaultAuthority env)) with
          | .error e => .error (.ledger e)
          | .ok s2 => .ok (setEscrow s2 a.escrow_account .absent)

/-- Leg (a) of `exchange`: `as_transfer_to_initializer_context` — transfer
`taker_amount` from the taker's deposit account to the initializer's
**deposit** token account, authorized by the taker's signature. -/
def exchangeLegA (sigs : List Pubkey) (a : ExchangeArgs) (r : EscrowAccount)
    (s : Chain) : Except LedgerErr Chain :=
  token_transfer s a.taker_deposit_token_account a.initializer_deposit_token_account
    a.taker (decide (a.taker ∈ sigs)) r.taker_amount

/-- Leg (b) of `exchange`: `as_transfer_to_taker_context` — transfer
`initializer_amount` from the vault to the taker's receive account, signed by
the `ESCROW_PDA_SEED` PDA via `with_signer`. -/
def exchangeLegB (env : Env) (a : ExchangeArgs) (r : EscrowAccount)
    (s : Chain) : Except LedgerErr Chain :=
  token_transfer s a.vault_account a.taker_receive_token_account
    a.vault_authority (decide (a.vault_authority = vaultAuthority env))
    r.initializer_amount

/-- Leg (c) of `exchange`: `as_close_context` — close the vault to the
initializer, signed by the PDA. -/
def exchangeLegC (env : Env) (a : ExchangeArgs) (s : Chain) :
    Except LedgerErr Chain :=
  token_close_account s a.vault_account a.initializer a.vault_authority
    (decide (a.vault_authority = vaultAuthority env))

/-- The Anchor validation phase of `exchange` (`Exchange` accounts struct, in
field order): taker signature; existence of the four token accounts; the
record with its four `constraint =` clauses in source order (taker balance,
deposit-account match, receive-account match, initializer-key match);
existence of the vault token account.  Returns the first failing check. -/
def exchangeValidate (sigs : List Pubkey) (a : ExchangeArgs) (s : Chain) :
    Option EscrowErr :=
  if a.taker ∉ sigs then some .missingSignature
  else
    match s.tokenAccounts a.taker_deposit_token_account with
    | none => some .accountNotFound
    | some takerDep =>
      if (s.tokenAccounts a.taker_receive_token_account).isNone then some .accountNotFound
      else if (s.tokenAccounts a.initializer_deposit_token_account).isNone then
        some .accountNotFound
      else if (s.tokenAccounts a.initializer_receive_token_account).isNone then
        some .accountNotFound
      else
        match s.escrowAccounts a.escrow_account with
        | .absent => some .escrowRecordMissing
        | .zeroed => some .escrowRecordMissing
        | .record r =>
          if takerDep.amount < r.taker_amount then some .constraintTakerBalance
          else if r.initializer_deposit_token_account ≠ a.initializer_deposit_token_account then
            some .constraintDepositAccount
          else if r.initializer_receive_token_account ≠ a.initializer_receive_token_account then
            some .constraintReceiveAccount
          else if r.initializer_key ≠ a.initializer then some .constraintInitializerKey
          else if (s.tokenAccounts a.vault_account).isNone then some .accountNotFound
          else none

/-- Instruction `exchange`.  After validation, the handler runs legs (a), (b), (c) in
strict source order, each `?`-propagating its error; `close = initializer`
then removes the record. -/
def exchange (env : Env) (sigs : List Pubkey) (a : ExchangeArgs) (s : Chain) :
    Except EscrowErr Chain :=
  match exchangeValidate sigs a s with
  | some e => .error e
  | none =>
    match s.escrowAccounts a.escrow_account with
    | .absent => .error .escrowRecordMissing
    | .zeroed => .error .escrowRecordMissing
    | .record r =>
      match exchangeLegA sigs a r s with
      | .error e => .error (.ledger e)
      | .ok s1 =>
        match exchangeLegB env a r s1 with
        | .error e => .error (.ledger e)
        | .ok s2 =>
          match exchangeLegC env a s2 with
          | .error e => .error (.ledger e)
          | .ok s3 => .ok (setEscrow s3 a.escrow_account .absent)

/-! ### Concrete fixture

A concrete deployment and the concrete scenario of the spec (initializer
deposits 100 of asset A wanting 50 of asset B), used by the witness and
counterexample theorems. -/

/-- A concrete PDA derivation function. -/
def deriveC : String → Pubkey → Pubkey := fun seed pid =>
  if seed = ESCROW_PDA_SEED then 100 + pid else 200 + pid

/-- A concrete bump-indexed derivation: distinct bumps give distinct
addresses. -/
def createAddressC : String → Nat → Pubkey → Pubkey := fun seed bump pid =>
  if seed = tokenSeed then 200 + bump + pid else 300 + bump + pid

/-- A concrete deployment: program id 1, rent reserve 5.  The vault authority
PDA is then 101 and the vault address for bump 0 is 201 (bump 1: 202). -/
def envC : Env :=
  { derive := deriveC, createAddress := createAddressC, programId := 1, rent := 5 }

/-- Token accounts before Initialize: 10 = initializer's A-deposit (100 A),
11 = initializer's B-receive (0), 12 = taker's B-deposit (50 B),
13 = taker's A-receive (0). -/
def tokInit : Pubkey → Option TokenAccount := fun k =>
  if k = 10 then some { owner := 2, amount := 100, lamports := 7 }
  else if k = 11 then some { owner := 2, amount := 0, lamports := 7 }
  else if k = 12 then some { owner := 3, amount := 50, lamports := 7 }
  else if k = 13 then some { owner := 3, amount := 0, lamports := 7 }
  else none

/-- Chain state before Initialize: the record account 30 is freshly zeroed. -/
def sInit : Chain :=
  { tokenAccounts := tokInit
    escrowAccounts := fun k => if k = 30 then .zeroed else .absent
    walletLamports := fun _ => 0 }

/-- Initialize call of the concrete scenario (initializer 2 locks 100 A,
asking 50 B, vault bump 0). -/
def argsInit : InitializeArgs :=
  { vault_account_bump := 0
    initializer := 2
    initializer_deposit_token_account := 10
    initializer_receive_token_account := 11
    escrow_account := 30
    initializer_amount := 100
    taker_amount := 50 }

/-- The Escrow Record of the concrete scenario. -/
def r0 : EscrowAccount :=
  { initializer_key := 2
    initializer_deposit_token_account := 10
    initializer_receive_token_account := 11
    initializer_amount := 100
    taker_amount := 50 }

/-- Chain state after the successful Initialize: vault 201 holds 100 A and is
owned by the PDA 101; the record is stored at 30. -/
def sOpen : Chain :=
  { tokenAccounts := fun k =>
      if k = 201 then some { owner := 101, amount := 100, lamports := 5 }
      else if k = 10 then some { owner := 2, amount := 0, lamports := 7 }
      else tokInit k
    escrowAccounts := fun k => if k = 30 then .record r0 else .absent
    walletLamports := fun _ => 0 }

/-- Cancel call of the concrete scenario. -/
def argsCancel : CancelArgs :=
  { initializer := 2
    initializer_deposit_token_account := 10
    vault_account := 201
    vault_authority := 101
    escrow_account := 30 }

/-- Exchange call of the concrete scenario (taker 3 pays 50 B). -/
def argsExchange : ExchangeArgs :=
  { taker := 3
    taker_deposit_token_account := 12
    taker_receive_token_account := 13
    initializer_deposit_token_account := 10
    initializer_receive_token_account := 11
    initializer := 2
    escrow_account := 30
    vault_account := 201
    vault_authority := 101 }

/-- The chain state a successful instruction (or ledger call) produced, or
`d` on failure; lets a closed statement name the post state of a concrete
call. -/
def okOr {ε : Type} (res : Except ε Chain) (d : Chain) : Chain :=
  match res with
  | .ok s => s
  | .error _ => d

/-- A Cancel attempt by identity 4, which is not the initializer. -/
def argsCancelBad : CancelArgs := { argsCancel with initializer := 4 }

/-- A state for two Initialize calls: deposit account 10 holds 200 and two
record accounts, 30 and 31, are freshly zeroed. -/
def sTwo : Chain :=
  { tokenAccounts := fun k =>
      if k = 10 then some { owner := 2, amount := 200, lamports := 7 }
      else tokInit k
    escrowAccounts := fun k =>
      if k = 30 then .zeroed else if k = 31 then .zeroed else .absent
    walletLamports := fun _ => 0 }

/-- A second Initialize call by the same initializer with a different vault
bump (1 instead of 0) and its own record account 31. -/
def argsInitB : InitializeArgs :=
  { argsInit with vault_account_bump := 1, escrow_account := 31 }

/-- Whether an instruction failed during Anchor account validation, i.e.
with a non-`ledger` error: such a failure precedes every token transfer of
the handler. -/
def failsBeforeTransfer (res : Except EscrowErr Chain) : Bool :=
  match res with
  | .error (.ledger _) => false
  | .error _ => true
  | .ok _ => false

/-- A state in which C8's three stated preconditions hold but the escrow
record account (address 30) is not freshly zeroed (it does not exist). -/
def sNoZero : Chain :=
  { tokenAccounts := tokInit
    escrowAccounts := fun _ => .absent
    walletLamports := fun _ => 0 }


/-! ### Helper lemmas -/

/-- A successful Cancel ends with `close = initializer` removing the record. -/
theorem cancel_ok_closes_record
    (env : Env) (sigs : List Pubkey) (a : CancelArgs) (s s' : Chain)
    (hok : cancel_escrow env sigs a s = .ok s') :
    s'.escrowAccounts a.escrow_account = .absent := by
  simp only [cancel_escrow] at hok
  repeat' split at hok
  all_goals try cases hok
  simp [setEscrow]

/-- A successful Exchange ends with `close = initializer` removing the record. -/
theorem exchange_ok_closes_record
    (env : Env) (sigs : List Pubkey) (a : ExchangeArgs) (s s' : Chain)
    (hok : exchange env sigs a s = .ok s') :
    s'.escrowAccounts a.escrow_account = .absent := by
  simp only [exchange] at hok
  repeat' split at hok
  all_goals try cases hok
  simp [setEscrow]

/-- Cancel cannot succeed when no record exists at the named address. -/
theorem cancel_requires_record
    (env : Env) (sigs : List Pubkey) (a : CancelArgs) (s : Chain)
    (habs : s.escrowAccounts a.escrow_account = .absent) :
    (cancel_escrow env sigs a s).isOk = false := by
  simp only [cancel_escrow, habs]
  repeat' split
  all_goals rfl

/-- Exchange cannot succeed when no record exists at the named address. -/
theorem exchange_requires_record
    (env : Env) (sigs : List Pubkey) (a : ExchangeArgs) (s : Chain)
    (habs : s.escrowAccounts a.escrow_account = .absent) :
    (exchange env sigs a s).isOk = false := by
  simp only [exchange, exchangeValidate, habs]
  repeat' split
  all_goals rfl

/-- Each of C5's conditions makes the Exchange validation phase fail. -/
theorem validate_fails_of_precondition
    (sigs : List Pubkey) (a : ExchangeArgs) (s : Chain) (r : EscrowAccount)
    (td : TokenAccount)
    (hrec : s.escrowAccounts a.escrow_account = .record r)
    (hcond : a.taker ∉ sigs
      ∨ (s.tokenAccounts a.taker_deposit_token_account = some td ∧ td.amount < r.taker_amount)
      ∨ r.initializer_deposit_token_account ≠ a.initializer_deposit_token_account
      ∨ r.initializer_receive_token_account ≠ a.initializer_receive_token_account
      ∨ r.initializer_key ≠ a.initializer) :
    (exchangeValidate sigs a s).isSome = true := by
  simp only [exchangeValidate, hrec]
  repeat' split
  all_goals simp_all

/-- Effect of a successful ledger transfer on the destination account (when
distinct from the source): its balance grows by `amt`; records, wallet
balances and all other token accounts are untouched. -/
theorem token_transfer_ok_to
    (s s' : Chain) (src dst auth : Pubkey) (sg : Bool) (amt : Nat) (b0 : TokenAccount)
    (hdst : s.tokenAccounts dst = some b0)
    (hne : src ≠ dst)
    (h : token_transfer s src dst auth sg amt = .ok s') :
    s'.tokenAccounts dst = some { b0 with amount := b0.amount + amt } ∧
    s'.escrowAccounts = s.escrowAccounts ∧
    s'.walletLamports = s.walletLamports ∧
    (∀ k, k ≠ src → k ≠ dst → s'.tokenAccounts k = s.tokenAccounts k) := by
  simp only [token_transfer, setTok, Ne.symm hne, ite_false, reduceIte, hdst] at h
  split at h
  · cases h
  rename_i a0 heqs
  split at h
  · cases h
  split at h
  · cases h
  split at h
  · cases h
  cases h
  refine ⟨by simp, rfl, rfl, ?_⟩
  intro k hk1 hk2
  simp [hk1, hk2]

/-- Effect of a successful ledger close on token accounts: the account is
gone, records and other token accounts are untouched. -/
theorem token_close_ok_effects
    (s s' : Chain) (acct dest auth : Pubkey) (sg : Bool)
    (h : token_close_account s acct dest auth sg = .ok s') :
    s'.tokenAccounts acct = none ∧
    s'.escrowAccounts = s.escrowAccounts ∧
    (∀ k, k ≠ acct → s'.tokenAccounts k = s.tokenAccounts k) := by
  simp only [token_close_account, setTok, addLamports] at h
  split at h
  · cases h
  rename_i acc heqs
  split at h
  · cases h
  split at h
  · cases h
  split at h
  · cases h
  cases h
  refine ⟨by simp, rfl, ?_⟩
  intro k hk
  simp [hk]

/-- Initialize validation passing implies the initializer co-signed. -/
theorem initializeValidate_none_mem
    (env : Env) (sigs : List Pubkey) (a : InitializeArgs) (s : Chain)
    (h : initializeValidate env sigs a s = none) :
    a.initializer ∈ sigs := by
  simp only [initializeValidate] at h
  repeat' split at h
  all_goals simp_all

/-! ### Theorems -/

/-- C2: every successful Initialize leaves the Vault holding exactly
`initializerAmount`, owned by the Derived Authority (the PDA of the fixed
seed `ESCROW_PDA_SEED` and the program identity), and stores an Escrow
Record whose five fields exactly match the call's inputs. -/
theorem initialize_post_state
    (env : Env) (sigs : List Pubkey) (a : InitializeArgs) (s s' : Chain)
    (hne : a.initializer_deposit_token_account ≠ vaultAddress env a.vault_account_bump)
    (hok : initialize_escrow env sigs a s = .ok s') :
    s'.tokenAccounts (vaultAddress env a.vault_account_bump)
      = some { owner := vaultAuthority env, amount := a.initializer_amount,
               lamports := env.rent } ∧
    s'.escrowAccounts a.escrow_account = .record
      { initializer_key := a.initializer
        initializer_deposit_token_account := a.initializer_deposit_token_account
        initializer_receive_token_account := a.initializer_receive_token_account
        initializer_amount := a.initializer_amount
        taker_amount := a.taker_amount } := by
  simp only [initialize_escrow] at hok
  split at hok
  · cases hok
  rename_i heqv
  have hmem := initializeValidate_none_mem env sigs a s heqv
  rw [show (decide (a.initializer ∈ sigs)) = true by simp [hmem]] at hok
  have hSA : token_set_authority
      (setEscrow (initVault env a s) a.escrow_account (.record (initRecord a)))
      (vaultAddress env a.vault_account_bump) (vaultAuthority env) a.initializer true
      = .ok (setTok (setEscrow (initVault env a s) a.escrow_account (.record (initRecord a)))
          (vaultAddress env a.vault_account_bump)
          (some { owner := vaultAuthority env, amount := 0, lamports := env.rent })) := by
    simp [token_set_authority, setEscrow, initVault, setTok]
  rw [hSA] at hok
  simp only [] at hok
  cases hT : token_transfer
      (setTok (setEscrow (initVault env a s) a.escrow_account (.record (initRecord a)))
        (vaultAddress env a.vault_account_bump)
        (some { owner := vaultAuthority env, amount := 0, lamports := env.rent }))
      a.initializer_deposit_token_account (vaultAddress env a.vault_account_bump) a.initializer true
      a.initializer_amount with
  | error e => rw [hT] at hok; cases hok
  | ok s3 =>
    rw [hT] at hok
    cases hok
    have heff := token_transfer_ok_to _ s' _ _ _ _ _
      { owner := vaultAuthority env, amount := 0, lamports := env.rent }
      (by simp [setTok]) hne hT
    refine ⟨?_, ?_⟩
    · rw [heff.1]
      simp
    · rw [heff.2.1]
      simp [setTok, setEscrow, initRecord]

/-- Witness for C2: the concrete Initialize leaves vault 201 holding 100,
owned by PDA 101, and stores the expected record at 30. -/
theorem initialize_post_state_witness :
    (okOr (initialize_escrow envC [2] argsInit sInit) sInit).tokenAccounts 201
      = some { owner := 101, amount := 100, lamports := 5 } ∧
    (okOr (initialize_escrow envC [2] argsInit sInit) sInit).escrowAccounts 30
      = EscrowSlot.record r0 := by
  have h := initialize_post_state envC [2] argsInit sInit
    (okOr (initialize_escrow envC [2] argsInit sInit) sInit) (by decide) rfl
  exact ⟨h.1, h.2⟩

/-- C6: Cancel fails (and, the transaction being discarded, leaves every
balance and the Record unchanged) whenever the calling identity does not
match the Record's `initializer_key` or the supplied deposit account does not
match the Record's `initializer_deposit_token_account`; under the instruction
being otherwise well-formed, an identity mismatch is reported as the
identity-mismatch constraint error. -/
theorem cancel_precondition_failures
    (env : Env) (sigs : List Pubkey) (a : CancelArgs) (s : Chain) (r : EscrowAccount)
    (hrec : s.escrowAccounts a.escrow_account = .record r) :
    ((r.initializer_key ≠ a.initializer ∨
      r.initializer_deposit_token_account ≠ a.initializer_deposit_token_account) →
      (cancel_escrow env sigs a s).isOk = false) ∧
    (a.initializer ∈ sigs →
      (s.tokenAccounts a.initializer_deposit_token_account).isSome = true →
      (s.tokenAccounts a.vault_account).isSome = true →
      r.initializer_key ≠ a.initializer →
      cancel_escrow env sigs a s = .error .constraintInitializerKey) := by
  constructor
  · intro hd
    simp only [cancel_escrow, hrec]
    repeat' split
    all_goals first
      | rfl
      | (rcases hd with h | h <;> simp_all)
  · intro h1 h2 h3 h4
    obtain ⟨d, hdd⟩ := Option.isSome_iff_exists.mp h2
    obtain ⟨w, hww⟩ := Option.isSome_iff_exists.mp h3
    simp only [cancel_escrow, hrec, hdd, hww, Option.isNone_some]
    simp [h1, h4]

/-- Witness for C6: a Cancel signed by identity 4 against the concrete open
escrow (initializer 2) fails with the identity-mismatch constraint error. -/
theorem cancel_precondition_failures_witness :
    (cancel_escrow envC [4] argsCancelBad sOpen).isOk = false ∧
    cancel_escrow envC [4] argsCancelBad sOpen
      = .error EscrowErr.constraintInitializerKey := by
  have h := cancel_precondition_failures envC [4] argsCancelBad sOpen r0 rfl
  exact ⟨h.1 (Or.inl (by decide)), h.2 (by decide) rfl rfl (by decide)⟩

/-- C3: a Record is consumed by at most one of Cancel/Exchange: a successful
Cancel or Exchange leaves the record slot `.absent`, and every later Cancel
or Exchange naming that slot fails (the Record no longer exists). -/
theorem record_single_use
    (env : Env) (sigs : List Pubkey) (s s' : Chain) (k : Pubkey)
    (ca : CancelArgs) (ea : ExchangeArgs)
    (h : (cancel_escrow env sigs ca s = .ok s' ∧ ca.escrow_account = k) ∨
         (exchange env sigs ea s = .ok s' ∧ ea.escrow_account = k)) :
    s'.escrowAccounts k = .absent ∧
    (∀ env2 sigs2 ca2, ca2.escrow_account = k →
      (cancel_escrow env2 sigs2 ca2 s').isOk = false) ∧
    (∀ env2 sigs2 ea2, ea2.escrow_account = k →
      (exchange env2 sigs2 ea2 s').isOk = false) := by
  have habs : s'.escrowAccounts k = .absent := by
    rcases h with ⟨hok, hk⟩ | ⟨hok, hk⟩
    · exact hk ▸ cancel_ok_closes_record env sigs ca s s' hok
    · exact hk ▸ exchange_ok_closes_record env sigs ea s s' hok
  refine ⟨habs, ?_, ?_⟩
  · intro env2 sigs2 ca2 hk2
    exact cancel_requires_record env2 sigs2 ca2 s' (hk2 ▸ habs)
  · intro env2 sigs2 ea2 hk2
    exact exchange_requires_record env2 sigs2 ea2 s' (hk2 ▸ habs)

/-- Witness for C3: after the concrete Cancel succeeds, both a second Cancel
and an Exchange against the same record address 30 fail. -/
theorem record_single_use_witness :
    (okOr (cancel_escrow envC [2] argsCancel sOpen) sOpen).escrowAccounts 30
      = EscrowSlot.absent ∧
    (cancel_escrow envC [2] argsCancel
      (okOr (cancel_escrow envC [2] argsCancel sOpen) sOpen)).isOk = false ∧
    (exchange envC [3] argsExchange
      (okOr (cancel_escrow envC [2] argsCancel sOpen) sOpen)).isOk = false := by
  have h := record_single_use envC [2] sOpen
    (okOr (cancel_escrow envC [2] argsCancel sOpen) sOpen) 30 argsCancel argsExchange
    (Or.inl ⟨rfl, rfl⟩)
  exact ⟨h.1, h.2.1 envC [2] argsCancel rfl, h.2.2 envC [3] argsExchange rfl⟩

/-- C7: for every successful Cancel, the full `initializerAmount` held by the
Vault (success forces the Vault to have held exactly that much) is
transferred back to the Record's bound deposit account, whose balance
increases by exactly `initializerAmount`; the Vault is closed with its
rent/lamport reserve returned to the initializer; the Record is closed; and
no other token account, record slot or wallet balance changes. -/
theorem cancel_success_effects
    (env : Env) (sigs : List Pubkey) (a : CancelArgs) (s s' : Chain)
    (r : EscrowAccount) (dep v : TokenAccount)
    (hrec : s.escrowAccounts a.escrow_account = .record r)
    (hdep : s.tokenAccounts a.initializer_deposit_token_account = some dep)
    (hv : s.tokenAccounts a.vault_account = some v)
    (hne : a.vault_account ≠ a.initializer_deposit_token_account)
    (hok : cancel_escrow env sigs a s = .ok s') :
    v.amount = r.initializer_amount ∧
    s'.tokenAccounts a.initializer_deposit_token_account
      = some { dep with amount := dep.amount + r.initializer_amount } ∧
    s'.tokenAccounts a.vault_account = none ∧
    s'.escrowAccounts a.escrow_account = .absent ∧
    s'.walletLamports a.initializer = s.walletLamports a.initializer + v.lamports ∧
    (∀ k, k ≠ a.initializer_deposit_token_account → k ≠ a.vault_account →
      s'.tokenAccounts k = s.tokenAccounts k) ∧
    (∀ k, k ≠ a.escrow_account → s'.escrowAccounts k = s.escrowAccounts k) ∧
    (∀ k, k ≠ a.initializer → s'.walletLamports k = s.walletLamports k) := by
  simp only [cancel_escrow, hrec, token_transfer, hv, token_close_account, setTok,
    hdep, Option.isNone_some, Ne.symm hne, if_false, Bool.false_eq_true] at hok
  repeat' split at hok
  all_goals try cases hok
  rename_i x1 s1 heq1 x2 s2 heq2
  split at heq1
  · cases heq1
  rename_i hA
  split at heq1
  · cases heq1
  rename_i hB
  split at heq1
  · cases heq1
  rename_i hbal
  cases heq1
  simp only [hne, ite_false, reduceIte, if_neg hA, if_neg hB] at heq2
  split at heq2
  · cases heq2
  rename_i hz
  cases heq2
  refine ⟨by omega, ?_, ?_, ?_, ?_, ?_, ?_, ?_⟩
  · simp [setEscrow, addLamports, Ne.symm hne]
  · simp [setEscrow, addLamports]
  · simp [setEscrow, addLamports]
  · simp [setEscrow, addLamports]
  · intro k hk1 hk2
    simp [setEscrow, addLamports, hk1, hk2]
  · intro k hk
    simp [setEscrow, addLamports, hk]
  · intro k hk
    simp [setEscrow, addLamports, hk]

/-- Witness for C7: in the concrete scenario, cancelling returns the 100
locked tokens to deposit account 10 and closes the record at 30. -/
theorem cancel_success_effects_witness :
    (okOr (cancel_escrow envC [2] argsCancel sOpen) sOpen).tokenAccounts 10
      = some { owner := 2, amount := 100, lamports := 7 } ∧
    (okOr (cancel_escrow envC [2] argsCancel sOpen) sOpen).escrowAccounts 30
      = EscrowSlot.absent := by
  have h := cancel_success_effects envC [2] argsCancel sOpen
    (okOr (cancel_escrow envC [2] argsCancel sOpen) sOpen) r0
    { owner := 2, amount := 0, lamports := 7 }
    { owner := 101, amount := 100, lamports := 5 }
    rfl rfl rfl (by decide) rfl
  exact ⟨h.2.1, h.2.2.2.1⟩

/-- C5: Exchange fails before any transfer occurs (with a validation error,
never a propagated ledger error; the discarded transaction leaves no state
change) if any Record-bound account mismatches the Record (initializer's
deposit account, receive account, or identity), if the taker's deposit
balance is below `takerAmount`, or if the taker did not co-sign. -/
theorem exchange_precondition_failures
    (env : Env) (sigs : List Pubkey) (a : ExchangeArgs) (s : Chain)
    (r : EscrowAccount) (td : TokenAccount)
    (hrec : s.escrowAccounts a.escrow_account = .record r)
    (hcond : a.taker ∉ sigs
      ∨ (s.tokenAccounts a.taker_deposit_token_account = some td ∧ td.amount < r.taker_amount)
      ∨ r.initializer_deposit_token_account ≠ a.initializer_deposit_token_account
      ∨ r.initializer_receive_token_account ≠ a.initializer_receive_token_account
      ∨ r.initializer_key ≠ a.initializer) :
    failsBeforeTransfer (exchange env sigs a s) = true := by
  have hval := validate_fails_of_precondition sigs a s r td hrec hcond
  obtain ⟨e, he⟩ := Option.isSome_iff_exists.mp hval
  have hexr : exchange env sigs a s = .error e := by
    simp only [exchange, he]
  rw [hexr]
  clear hexr hval hcond
  simp only [exchangeValidate] at he
  repeat' split at he
  all_goals cases he
  all_goals rfl

/-- Witness for C5: an Exchange paying from token account 13 (balance 0,
below the 50 owed) fails during validation, before any transfer. -/
theorem exchange_precondition_failures_witness :
    failsBeforeTransfer (exchange envC [3]
      { argsExchange with taker_deposit_token_account := 13 } sOpen) = true := by
  exact exchange_precondition_failures envC [3]
    { argsExchange with taker_deposit_token_account := 13 } sOpen r0
    { owner := 3, amount := 0, lamports := 7 } rfl
    (Or.inr (Or.inl ⟨rfl, by decide⟩))

/-- C9: the Exchange validation places no Record- or taker-linked constraint
on the taker's deposit and receive account slots: substituting any existing
token accounts there, with the deposit's balance at least `takerAmount`,
still passes every check. -/
theorem exchange_taker_accounts_unconstrained
    (sigs : List Pubkey) (a : ExchangeArgs) (s : Chain) (r : EscrowAccount)
    (d w : Pubkey) (td : TokenAccount)
    (hrec : s.escrowAccounts a.escrow_account = .record r)
    (hd : s.tokenAccounts d = some td)
    (hw : (s.tokenAccounts w).isSome = true)
    (hbal : r.taker_amount ≤ td.amount)
    (hpass : exchangeValidate sigs a s = none) :
    exchangeValidate sigs
      { a with taker_deposit_token_account := d, taker_receive_token_account := w } s
      = none := by
  obtain ⟨wa, hwa⟩ := Option.isSome_iff_exists.mp hw
  simp only [exchangeValidate, hrec] at hpass ⊢
  repeat' split at hpass
  all_goals try cases hpass
  simp_all [Nat.not_lt.mpr hbal]

/-- Witness for C9: the concrete Exchange validation also passes when the
taker pays from account 12 into the initializer's own deposit account 10 —
neither taker-side slot is tied to the Record. -/
theorem exchange_taker_accounts_unconstrained_witness :
    exchangeValidate [3]
      { argsExchange with taker_deposit_token_account := 12,
                          taker_receive_token_account := 10 } sOpen = none := by
  exact exchange_taker_accounts_unconstrained [3] argsExchange sOpen r0 12 10
    { owner := 3, amount := 50, lamports := 7 } rfl rfl rfl (by decide) rfl

/-- C4: Exchange runs its steps in strict source order — (a) the taker pays
`takerAmount`, (b) the vault releases `initializerAmount`, (c) vault and
record are closed.  A successful Exchange performed all three in that order;
if the taker's payment leg (a) fails, the whole instruction fails (so the
vault release never occurred), and any failed instruction returns an error,
which the host discards without retaining any partial transfer. -/
theorem exchange_strict_order_atomic
    (env : Env) (sigs : List Pubkey) (a : ExchangeArgs) (s s' : Chain)
    (r : EscrowAccount)
    (hrec : s.escrowAccounts a.escrow_account = .record r) :
    (exchange env sigs a s = .ok s' →
      (exchangeLegA sigs a r s).isOk = true ∧
      (exchangeLegB env a r (okOr (exchangeLegA sigs a r s) s)).isOk = true ∧
      (exchangeLegC env a
        (okOr (exchangeLegB env a r (okOr (exchangeLegA sigs a r s) s)) s)).isOk = true ∧
      s' = setEscrow
        (okOr (exchangeLegC env a
          (okOr (exchangeLegB env a r (okOr (exchangeLegA sigs a r s) s)) s)) s)
        a.escrow_account .absent) ∧
    ((exchangeLegA sigs a r s).isOk = false →
      (exchange env sigs a s).isOk = false) := by
  constructor
  · intro hok
    simp only [exchange, hrec] at hok
    split at hok
    · cases hok
    cases hA : exchangeLegA sigs a r s with
    | error e => simp only [hA] at hok; cases hok
    | ok s1 =>
      simp only [hA] at hok
      simp only [okOr, hA]
      cases hB : exchangeLegB env a r s1 with
      | error e => simp only [hB] at hok; cases hok
      | ok s2 =>
        simp only [hB] at hok
        simp only [okOr, hB]
        cases hC : exchangeLegC env a s2 with
        | error e => simp only [hC] at hok; cases hok
        | ok s3 =>
          simp only [hC] at hok
          simp only [okOr, hC]
          cases hok
          exact ⟨rfl, rfl, rfl, rfl⟩
  · intro hfail
    simp only [exchange, hrec]
    split
    · rfl
    cases hA : exchangeLegA sigs a r s with
    | error e => rfl
    | ok s1 => rw [hA] at hfail; cases hfail

/-- Witness for C4: in the concrete successful Exchange, both transfer legs
ran (leg (b) from the state leg (a) produced). -/
theorem exchange_strict_order_atomic_witness :
    (exchangeLegA [3] argsExchange r0 sOpen).isOk = true ∧
    (exchangeLegB envC argsExchange r0
      (okOr (exchangeLegA [3] argsExchange r0 sOpen) sOpen)).isOk = true := by
  have h := (exchange_strict_order_atomic envC [3] argsExchange sOpen
    (okOr (exchange envC [3] argsExchange sOpen) sOpen) r0 rfl).1 rfl
  exact ⟨h.1, h.2.1⟩

/-- After a successful ledger transfer the destination account exists. -/
theorem token_transfer_ok_dest_exists
    (s s' : Chain) (src dst auth : Pubkey) (sg : Bool) (amt : Nat)
    (h : token_transfer s src dst auth sg amt = .ok s') :
    (s'.tokenAccounts dst).isSome = true := by
  simp only [token_transfer, setTok] at h
  split at h
  · cases h
  split at h
  · cases h
  split at h
  · cases h
  split at h
  · cases h
  split at h
  · cases h
  cases h
  simp

/-- A successful Initialize leaves a token account at the vault PDA. -/
theorem initialize_ok_vault_exists
    (env : Env) (sigs : List Pubkey) (a : InitializeArgs) (s s' : Chain)
    (hok : initialize_escrow env sigs a s = .ok s') :
    (s'.tokenAccounts (vaultAddress env a.vault_account_bump)).isSome = true := by
  simp only [initialize_escrow] at hok
  split at hok
  · cases hok
  cases hSA : token_set_authority
      (setEscrow (initVault env a s) a.escrow_account (.record (initRecord a)))
      (vaultAddress env a.vault_account_bump) (vaultAuthority env) a.initializer
      (decide (a.initializer ∈ sigs)) with
  | error e => rw [hSA] at hok; cases hok
  | ok s2 =>
    rw [hSA] at hok
    simp only [] at hok
    cases hT : token_transfer s2 a.initializer_deposit_token_account
        (vaultAddress env a.vault_account_bump) a.initializer (decide (a.initializer ∈ sigs))
        a.initializer_amount with
    | error e => rw [hT] at hok; cases hok
    | ok s3 =>
      rw [hT] at hok
      cases hok
      exact token_transfer_ok_dest_exists s2 s' _ _ _ _ _ hT

/-- Counterexample for C10 as stated: the vault PDA derivation takes the
caller-supplied `vault_account_bump` besides the fixed seed and the program
identity.  Concretely, an Initialize with bump 0 succeeds and its Vault
account exists, yet a second Initialize with bump 1 (and its own zeroed
record account) also succeeds, at a different vault address — refuting both
"every deal's Vault has the same address" and "any second Initialize
fails". -/
theorem initialize_second_bump_counterexample :
    (initialize_escrow envC [2] argsInit sTwo).isOk = true ∧
    ((okOr (initialize_escrow envC [2] argsInit sTwo) sTwo).tokenAccounts
      (vaultAddress envC argsInit.vault_account_bump)).isSome = true ∧
    (initialize_escrow envC [2] argsInitB
      (okOr (initialize_escrow envC [2] argsInit sTwo) sTwo)).isOk = true ∧
    vaultAddress envC argsInitB.vault_account_bump
      ≠ vaultAddress envC argsInit.vault_account_bump := by
  refine ⟨by decide, by decide, by decide, by decide⟩

/-- C10 (amended): the Vault address is
`create_program_address(["token-seed", bump], programId)` — determined by the
fixed seed, the program identity and the caller-supplied
`vault_account_bump`, with no other per-deal component, so every deal using
the same bump has the same Vault address — and while a successful
Initialize's Vault account exists, every second Initialize supplying the
same bump (any signer, any other arguments) fails, since `init` would
re-create an account at that same address.  (A second Initialize with a
different valid bump can succeed at a different address.) -/
theorem vault_address_fixed_seed_single_escrow
    (env : Env) (sigs : List Pubkey) (a : InitializeArgs) (s s' : Chain)
    (hok : initialize_escrow env sigs a s = .ok s') :
    vaultAddress env a.vault_account_bump
      = env.createAddress tokenSeed a.vault_account_bump env.programId ∧
    (s'.tokenAccounts (vaultAddress env a.vault_account_bump)).isSome = true ∧
    (∀ sigs2 a2, a2.vault_account_bump = a.vault_account_bump →
      (initialize_escrow env sigs2 a2 s').isOk = false) := by
  have hv := initialize_ok_vault_exists env sigs a s s' hok
  refine ⟨rfl, hv, ?_⟩
  intro sigs2 a2 hb
  rw [show vaultAddress env a.vault_account_bump
      = vaultAddress env a2.vault_account_bump from hb ▸ rfl] at hv
  simp only [initialize_escrow, initializeValidate, hv]
  split
  · rfl
  · rename_i heq
    simp only [reduceIte] at heq
    split at heq <;> cases heq

/-- Witness for C10 (amended): re-running the concrete Initialize (same bump
0) right after it succeeded fails. -/
theorem vault_address_fixed_seed_single_escrow_witness :
    (initialize_escrow envC [2] argsInit
      (okOr (initialize_escrow envC [2] argsInit sInit) sInit)).isOk = false := by
  exact (vault_address_fixed_seed_single_escrow envC [2] argsInit sInit
    (okOr (initialize_escrow envC [2] argsInit sInit) sInit) rfl).2.2 [2] argsInit rfl
/-- Counterexample for C8 as stated: the initializer co-signed, the Vault
account is fresh (nonexistent), and the deposit balance covers
`initializerAmount`, yet Initialize is rejected — because the Escrow Record
account is not freshly zeroed, a precondition the claim omits from its
acceptance clause. -/
theorem initialize_accept_counterexample :
    (2 ∈ ([2] : List Pubkey)) ∧
    sNoZero.tokenAccounts (vaultAddress envC argsInit.vault_account_bump) = none ∧
    sNoZero.tokenAccounts 10 = some { owner := 2, amount := 100, lamports := 7 } ∧
    argsInit.initializer_amount ≤ 100 ∧
    (initialize_escrow envC [2] argsInit sNoZero).isOk = false := by
  refine ⟨by decide, by decide, by decide, by decide, by decide⟩

/-- C8 (amended): Initialize aborts (error, transaction discarded with no
state change) whenever the deposit balance is below `initializerAmount`, the
Vault account already exists, the Escrow Record account is not freshly
zeroed, or the initializer did not co-sign; and a call is accepted when,
besides the vault being fresh, the record account zeroed, the balance
sufficient and the initializer co-signing, the usual well-formedness side
conditions hold (deposit distinct from the vault PDA, receive account
exists, and the initializer is the deposit account's recorded authority). -/
theorem initialize_precondition_characterization
    (env : Env) (sigs : List Pubkey) (a : InitializeArgs) (s : Chain) (dep : TokenAccount)
    (hdep : s.tokenAccounts a.initializer_deposit_token_account = some dep) :
    ((dep.amount < a.initializer_amount
      ∨ (s.tokenAccounts (vaultAddress env a.vault_account_bump)).isSome = true
      ∨ s.escrowAccounts a.escrow_account ≠ EscrowSlot.zeroed
      ∨ a.initializer ∉ sigs) →
      (initialize_escrow env sigs a s).isOk = false) ∧
    (a.initializer ∈ sigs →
      s.tokenAccounts (vaultAddress env a.vault_account_bump) = none →
      a.initializer_deposit_token_account ≠ vaultAddress env a.vault_account_bump →
      a.initializer_amount ≤ dep.amount →
      dep.owner = a.initializer →
      (s.tokenAccounts a.initializer_receive_token_account).isSome = true →
      s.escrowAccounts a.escrow_account = EscrowSlot.zeroed →
      (initialize_escrow env sigs a s).isOk = true) := by
  constructor
  · intro hcond
    cases hval : initializeValidate env sigs a s with
    | some e =>
      simp only [initialize_escrow, hval]
      rfl
    | none =>
      exfalso
      simp only [initializeValidate, initVault, setTok] at hval
      split at hval
      · cases hval
      rename_i hmem
      split at hval
      · cases hval
      rename_i hvs
      have hnvault : s.tokenAccounts (vaultAddress env a.vault_account_bump) = none := by
        cases hcase : s.tokenAccounts (vaultAddress env a.vault_account_bump) <;> simp_all
      have hnv : a.initializer_deposit_token_account ≠ vaultAddress env a.vault_account_bump := by
        intro hEq
        rw [hEq, hnvault] at hdep
        cases hdep
      rw [if_neg hnv, hdep] at hval
      simp only [Option.isNone_some] at hval
      by_cases hb : dep.amount < a.initializer_amount
      · rw [if_pos hb] at hval
        cases hval
      rw [if_neg hb] at hval
      by_cases hr : ((if a.initializer_receive_token_account = vaultAddress env a.vault_account_bump then
          some { owner := a.initializer, amount := 0, lamports := env.rent }
        else s.tokenAccounts a.initializer_receive_token_account)).isNone = true
      · rw [if_pos hr] at hval
        cases hval
      rw [if_neg hr] at hval
      by_cases hs : s.escrowAccounts a.escrow_account ≠ EscrowSlot.zeroed
      · rw [if_pos hs] at hval
        cases hval
      rcases hcond with h | h | h | h
      · exact hb h
      · rw [hnvault] at h
        exact absurd h (by simp)
      · exact hs h
      · exact hmem h
  · intro h1 h2 h3 h4 h5 h6 h7
    have hval : initializeValidate env sigs a s = none := by
      obtain ⟨w, hw⟩ := Option.isSome_iff_exists.mp h6
      by_cases hrv : a.initializer_receive_token_account = vaultAddress env a.vault_account_bump <;>
        simp [initializeValidate, initVault, setTok, h1, h2, h3, hdep, h7, hrv, hw,
          Nat.not_lt.mpr h4]
    simp [initialize_escrow, hval, token_set_authority, token_transfer, setTok,
      setEscrow, initVault, h3, Ne.symm h3, hdep, h5, Nat.not_lt.mpr h4, h1,
      Except.isOk, Except.toBool]
/-- Witness for C8 (amended): the non-zeroed-record call is rejected, and the
fully well-formed concrete call is accepted. -/
theorem initialize_precondition_characterization_witness :
    (initialize_escrow envC [2] argsInit sNoZero).isOk = false ∧
    (initialize_escrow envC [2] argsInit sInit).isOk = true := by
  have hbad := (initialize_precondition_characterization envC [2] argsInit sNoZero
    { owner := 2, amount := 100, lamports := 7 } rfl).1
    (Or.inr (Or.inr (Or.inl (by decide))))
  have hgood := (initialize_precondition_characterization envC [2] argsInit sInit
    { owner := 2, amount := 100, lamports := 7 } rfl).2
    (by decide) rfl (by decide) (by decide) rfl rfl rfl
  exact ⟨hbad, hgood⟩
/-- A successful ledger transfer leaves every third account unchanged. -/
theorem token_transfer_ok_frame
    (s s' : Chain) (src dst auth : Pubkey) (sg : Bool) (amt : Nat)
    (h : token_transfer s src dst auth sg amt = .ok s')
    (k : Pubkey) (hk1 : k ≠ src) (hk2 : k ≠ dst) :
    s'.tokenAccounts k = s.tokenAccounts k := by
  simp only [token_transfer, setTok] at h
  split at h
  · cases h
  split at h
  · cases h
  split at h
  · cases h
  split at h
  · cases h
  split at h
  · cases h
  cases h
  simp [hk1, hk2]

/-- A successful Exchange decomposes into its three legs in order, followed
by the record's `close = initializer`. -/
theorem exchange_ok_decompose
    (env : Env) (sigs : List Pubkey) (a : ExchangeArgs) (s s' : Chain)
    (r : EscrowAccount)
    (hrec : s.escrowAccounts a.escrow_account = .record r)
    (hok : exchange env sigs a s = .ok s') :
    ∃ s1 s2 s3, exchangeLegA sigs a r s = .ok s1 ∧ exchangeLegB env a r s1 = .ok s2 ∧
      exchangeLegC env a s2 = .ok s3 ∧ s' = setEscrow s3 a.escrow_account .absent := by
  simp only [exchange, hrec] at hok
  split at hok
  · cases hok
  cases hA : exchangeLegA sigs a r s with
  | error e => simp only [hA] at hok; cases hok
  | ok s1 =>
    simp only [hA] at hok
    cases hB : exchangeLegB env a r s1 with
    | error e => simp only [hB] at hok; cases hok
    | ok s2 =>
      simp only [hB] at hok
      cases hC : exchangeLegC env a s2 with
      | error e => simp only [hC] at hok; cases hok
      | ok s3 =>
        simp only [hC] at hok
        cases hok
        exact ⟨s1, s2, s3, rfl, hB, hC, rfl⟩

/-- Counterexample for C1 as stated: in the concrete scenario the Exchange
succeeds, yet the Record's `initializer_receive_token_account` (account 11)
still holds 0 afterwards — the taker's 50-token payment was credited to the
initializer's deposit account 10 instead (`as_transfer_to_initializer_context`
names `initializer_deposit_token_account` as destination). -/
theorem exchange_payment_not_to_receive_account :
    (exchange envC [3] argsExchange sOpen).isOk = true ∧
    r0.initializer_receive_token_account = 11 ∧
    r0.taker_amount = 50 ∧
    sOpen.tokenAccounts 11 = some { owner := 2, amount := 0, lamports := 7 } ∧
    (okOr (exchange envC [3] argsExchange sOpen) sOpen).tokenAccounts 11
      = some { owner := 2, amount := 0, lamports := 7 } ∧
    (okOr (exchange envC [3] argsExchange sOpen) sOpen).tokenAccounts 10
      = some { owner := 2, amount := 50, lamports := 7 } := by
  refine ⟨by decide, by decide, by decide, by decide, by decide, by decide⟩

/-- C1 (amended): for every successful Exchange, the counterparty's payment
of `takerAmount` is delivered to the account the Record binds as
`initializer_deposit_token_account` — not to the receive account, which
(when distinct from the four accounts the handler touches) is left
completely unchanged. -/
theorem exchange_payment_to_deposit_account
    (env : Env) (sigs : List Pubkey) (a : ExchangeArgs) (s s' : Chain)
    (r : EscrowAccount) (idep : TokenAccount)
    (hrec : s.escrowAccounts a.escrow_account = .record r)
    (hidep : s.tokenAccounts a.initializer_deposit_token_account = some idep)
    (hne1 : a.initializer_deposit_token_account ≠ a.taker_deposit_token_account)
    (hne2 : a.initializer_deposit_token_account ≠ a.vault_account)
    (hne3 : a.initializer_deposit_token_account ≠ a.taker_receive_token_account)
    (hok : exchange env sigs a s = .ok s') :
    s'.tokenAccounts a.initializer_deposit_token_account
      = some { idep with amount := idep.amount + r.taker_amount } ∧
    (a.initializer_receive_token_account ≠ a.taker_deposit_token_account →
      a.initializer_receive_token_account ≠ a.initializer_deposit_token_account →
      a.initializer_receive_token_account ≠ a.vault_account →
      a.initializer_receive_token_account ≠ a.taker_receive_token_account →
      s'.tokenAccounts a.initializer_receive_token_account
        = s.tokenAccounts a.initializer_receive_token_account) := by
  obtain ⟨s1, s2, s3, hA, hB, hC, rfl⟩ :=
    exchange_ok_decompose env sigs a s s' r hrec hok
  have e1 := token_transfer_ok_to s s1 _ _ _ _ _ idep hidep (Ne.symm hne1) hA
  have e2 := token_transfer_ok_frame s1 s2 _ _ _ _ _ hB
    a.initializer_deposit_token_account hne2 hne3
  have e3 := token_close_ok_effects s2 s3 _ _ _ _ hC
  constructor
  · have := e3.2.2 a.initializer_deposit_token_account hne2
    simp only [setEscrow]
    rw [this, e2, e1.1]
  · intro hr1 hr2 hr3 hr4
    have f1 := token_transfer_ok_frame s s1 _ _ _ _ _ hA
      a.initializer_receive_token_account hr1 hr2
    have f2 := token_transfer_ok_frame s1 s2 _ _ _ _ _ hB
      a.initializer_receive_token_account hr3 hr4
    have f3 := e3.2.2 a.initializer_receive_token_account hr3
    simp only [setEscrow]
    rw [f3, f2, f1]
/-- Witness for C1 (amended): concretely, deposit account 10 ends at 50 and
receive account 11 is untouched. -/
theorem exchange_payment_to_deposit_account_witness :
    (okOr (exchange envC [3] argsExchange sOpen) sOpen).tokenAccounts 10
      = some { owner := 2, amount := 50, lamports := 7 } ∧
    (okOr (exchange envC [3] argsExchange sOpen) sOpen).tokenAccounts 11
      = sOpen.tokenAccounts 11 := by
  have h := exchange_payment_to_deposit_account envC [3] argsExchange sOpen
    (okOr (exchange envC [3] argsExchange sOpen) sOpen) r0
    { owner := 2, amount := 0, lamports := 7 }
    rfl rfl (by decide) (by decide) (by decide) rfl
  exact ⟨h.1, h.2 (by decide) (by decide) (by decide) (by decide)⟩
end EscrowProgram
